import Mathlib

/-!
Verification of the BPlayblast capture orchestrator (src/main.py).

The Python class `BPlayblast` is shallowly embedded below: Python runtime
values are modelled by `PyVal`, Python exceptions by `PyErr`, the Maya host
application state read through `cmds`/`mel` by `HostState`, and the mutable
instance attributes of a `BPlayblast` object by `Config`.  Each method of the
class becomes a pure function; methods with observable side effects
(logging, switching the viewport camera, invoking `cmds.playblast`, running
ffmpeg, deleting the temp directory, opening a viewer) return a list of
`Event`s describing, in order, the calls they made.  Uncaught Python
exceptions are modelled with `Except` / an `Option PyErr` component.

Log message texts are kept close to the source but the Python `repr` of
enumerations embedded in some messages (for example `dict_keys([...])`) is
abbreviated; no theorem below depends on the exact text of a log message.
-/

namespace BPlayblast

/-- Python runtime values that flow through the configuration setters. -/
inductive PyVal where
  | none
  | int (n : Int)
  | float (q : ℚ)
  | str (s : String)
  | tuple (xs : List PyVal)
  | list (xs : List PyVal)

/-- Python exception kinds raised by the embedded code. -/
inductive PyErr where
  | keyError
  | indexError
  | typeError
  | nameError
  | valueError
  | zeroDivisionError
  | runtimeError (msg : String)
deriving DecidableEq

instance {ε α : Type} [DecidableEq ε] [DecidableEq α] : DecidableEq (Except ε α) :=
  fun a b =>
    match a, b with
    | .ok x, .ok y =>
      if h : x = y then isTrue (by rw [h]) else isFalse (fun hc => h (Except.ok.inj hc))
    | .error x, .error y =>
      if h : x = y then isTrue (by rw [h]) else isFalse (fun hc => h (Except.error.inj hc))
    | .ok _, .error _ => isFalse (fun hc => Except.noConfusion hc)
    | .error _, .ok _ => isFalse (fun hc => Except.noConfusion hc)

/-- Python truthiness (`if v:`). -/
def PyVal.truthy : PyVal → Bool
  | .none => false
  | .int n => n != 0
  | .float q => q != 0
  | .str s => s != ""
  | .tuple xs => !xs.isEmpty
  | .list xs => !xs.isEmpty

/-- `isinstance(v, int)` (Python `bool` values are not modelled). -/
def PyVal.isInt : PyVal → Bool
  | .int _ => true
  | _ => false

/-- Python subscription `v[i]` for a natural index. -/
def pyIndex (v : PyVal) (i : Nat) : Except PyErr PyVal :=
  match v with
  | .tuple xs =>
    match xs.get? i with
    | some x => .ok x
    | Option.none => .error .indexError
  | .list xs =>
    match xs.get? i with
    | some x => .ok x
    | Option.none => .error .indexError
  | .str s =>
    match s.toList.get? i with
    | some c => .ok (.str (String.mk [c]))
    | Option.none => .error .indexError
  | _ => .error .typeError

/-- Python `a - b` on numbers (int/float promotion). -/
def pySub : PyVal → PyVal → Except PyErr PyVal
  | .int a, .int b => .ok (.int (a - b))
  | .int a, .float b => .ok (.float ((a : ℚ) - b))
  | .float a, .int b => .ok (.float (a - (b : ℚ)))
  | .float a, .float b => .ok (.float (a - b))
  | _, _ => .error .typeError

/-- Python `a / b` on numbers (true division, always a float). -/
def pyDiv : PyVal → PyVal → Except PyErr PyVal
  | .int a, .int b =>
    if b = 0 then .error .zeroDivisionError else .ok (.float ((a : ℚ) / (b : ℚ)))
  | .int a, .float b =>
    if b = 0 then .error .zeroDivisionError else .ok (.float ((a : ℚ) / b))
  | .float a, .int b =>
    if b = 0 then .error .zeroDivisionError else .ok (.float (a / (b : ℚ)))
  | .float a, .float b =>
    if b = 0 then .error .zeroDivisionError else .ok (.float (a / b))
  | _, _ => .error .typeError

/-- Python `int(q)` on a float: truncation toward zero. -/
def ratTrunc (q : ℚ) : Int := Int.tdiv q.num (q.den : Int)

/- Class-level constants of `BPlayblast` (src/main.py lines 12-62). -/

def DEFAULT_FFMPEG_PATH : String := "D:/programs/ffmpeg/bin/ffmpeg.exe"

def DEFAULT_PADDING : Int := 4

def RESOLUTION_LOOKUP : List (String × List Int) :=
  [("Render", []), ("HD 1080", [1920, 1080]), ("HD 720", [1280, 720]), ("HD 540", [960, 540])]

def FRAME_RANGE_PRESETS : List String := ["Render", "Playback", "Animation"]

def VIDEO_ENCODER_LOOKUP : List (String × List String) :=
  [("mov", ["h264"]), ("mp4", ["h264"]), ("Image", ["jpg", "png", "tif"])]

def H264_QUALITIES : List (String × Int) :=
  [("Very high", 18), ("High", 20), ("Medium", 23), ("Low", 26)]

def H264_PRESETS : List String :=
  ["veryslow", "slow", "medium", "fast", "faster", "ultrafast"]

/-- The live Maya host state read through `cmds` / `mel` queries, plus the
filesystem facts read through `os.path` / `QFileInfo`, plus whether the
`cmds.playblast` call would succeed.  One value of this structure describes
the host at one moment; preset re-resolution is modelled by passing possibly
different values at set-time and read-time. -/
structure HostState where
  renderWidth : Int
  renderHeight : Int
  renderStartFrame : ℚ
  renderEndFrame : ℚ
  playbackMin : ℚ
  playbackMax : ℚ
  animationStart : ℚ
  animationEnd : ℚ
  timeUnit : String
  cameras : List String
  viewportPanel : Option String
  panelCamera : String
  soundNode : Option String
  soundFilename : String
  soundFileExists : Bool
  soundOffset : ℚ
  projectDir : String
  sceneShortName : String
  existingFiles : List String
  existingDirs : List String
  playblastSucceeds : Bool
  quicktimeViewer : Option String
  tempDirRemoveOk : Bool

/-- `os.path.exists` over the modelled filesystem. -/
def pathExists (h : HostState) (p : String) : Bool :=
  h.existingFiles.contains p || h.existingDirs.contains p

/-- The mutable instance attributes of a `BPlayblast` object that the
configuration setters write. -/
structure Config where
  ffmpeg_path : String
  camera : Option String
  resolution_preset : Option String
  width_height : PyVal × PyVal
  frame_range_preset : Option String
  start_frame : PyVal
  end_frame : PyVal
  container_format : String
  encoder : String
  h264_quality : String
  h264_preset : String
  image_quality : Int

/-- `BPlayblast.preset_to_resolution` (src/main.py lines 316-324).  The
"Render" preset queries the host render settings; the other presets come
from `RESOLUTION_LOOKUP`; anything else raises `RuntimeError`. -/
def preset_to_resolution (h : HostState) (s : String) : Except PyErr PyVal :=
  if s = "Render" then .ok (.tuple [.int h.renderWidth, .int h.renderHeight])
  else
    match RESOLUTION_LOOKUP.lookup s with
    | some wh => .ok (.tuple (wh.map PyVal.int))
    | Option.none => .error (.runtimeError ("Invalid resolution preset: " ++ s))

/-- Validation-and-store tail of `set_resolution` (src/main.py lines
292-308): `cfg2` holds the attributes after the preset probe mutated
`_resolution_preset`, and `wh` is the local `width_height` value.  Both
subscriptions and the `isinstance` checks sit inside the source try/except,
so any failure lands in the logged-error branch; either error branch returns
without touching `_width_height`. -/
def set_resolution_store (cfg2 : Config) (wh : PyVal) : Config × List String :=
  match pyIndex wh 0, pyIndex wh 1 with
  | .ok (.int a), .ok (.int b) =>
    if a ≤ 0 ∨ b ≤ 0 then
      (cfg2, ["Invalid resolution: values must be greater than zero."])
    else
      ({ cfg2 with width_height := (.int a, .int b) }, [])
  | _, _ =>
    (cfg2, ["Invalid resolution: expected one of [int, int] or a resolution preset name."])

/-- `BPlayblast.set_resolution` (src/main.py lines 283-308).  Returns the
updated attributes together with the error messages logged.  Mirrors the
source exactly: `_resolution_preset` is assigned `None` first; a successful
preset lookup re-assigns it before validation; then the validation-and-store
tail runs. -/
def set_resolution (h : HostState) (cfg : Config) (resolution : PyVal) :
    Config × List String :=
  let cfg1 := { cfg with resolution_preset := Option.none }
  match resolution with
  | .str s =>
    match preset_to_resolution h s with
    | .ok wh => set_resolution_store { cfg1 with resolution_preset := some s } wh
    | .error _ => set_resolution_store cfg1 resolution
  | _ => set_resolution_store cfg1 resolution

/-- `BPlayblast.get_resolution_width_height` (src/main.py lines 310-314):
a stored preset is re-resolved against the host at read time. -/
def get_resolution_width_height (h : HostState) (cfg : Config) : Except PyErr PyVal :=
  match cfg.resolution_preset with
  | some p => preset_to_resolution h p
  | Option.none => .ok (.tuple [cfg.width_height.1, cfg.width_height.2])

/-- `BPlayblast.preset_to_frame_range` (src/main.py lines 326-339).  The
"Render" preset returns the raw (float) render-globals attributes; the
playback/animation presets truncate the playback options to ints. -/
def preset_to_frame_range (h : HostState) (s : String) : Except PyErr (PyVal × PyVal) :=
  if s = "Render" then .ok (.float h.renderStartFrame, .float h.renderEndFrame)
  else if s = "Playback" then
    .ok (.int (ratTrunc h.playbackMin), .int (ratTrunc h.playbackMax))
  else if s = "Animation" then
    .ok (.int (ratTrunc h.animationStart), .int (ratTrunc h.animationEnd))
  else .error (.runtimeError ("Invalid frame range preset: " ++ s))

/-- `BPlayblast.resolve_frame_range` (src/main.py lines 483-497).  A list or
tuple is taken apart by subscription with no further validation; a string is
resolved as a preset; any exception along the way is caught and turned into
a logged error with a `None` result. -/
def resolve_frame_range (h : HostState) (frame_range : PyVal) :
    Option (PyVal × PyVal) × List String :=
  let err := ["Invalid frame range. Expected one of (start_frame, end_frame) or a frame range preset name."]
  match frame_range with
  | .tuple xs =>
    match xs.get? 0, xs.get? 1 with
    | some a, some b => (some (a, b), [])
    | _, _ => (Option.none, err)
  | .list xs =>
    match xs.get? 0, xs.get? 1 with
    | some a, some b => (some (a, b), [])
    | _, _ => (Option.none, err)
  | .str s =>
    match preset_to_frame_range h s with
    | .ok se => (some se, [])
    | .error _ => (Option.none, err)
  | _ => (Option.none, err)

/-- `BPlayblast.set_frame_range` (src/main.py lines 380-390).  On a failed
resolve the method returns immediately, leaving every attribute (including
`_frame_range_preset`) unchanged; on success the preset marker is set only
when the argument is one of the preset names. -/
def set_frame_range (h : HostState) (cfg : Config) (frame_range : PyVal) :
    Config × List String :=
  match resolve_frame_range h frame_range with
  | (Option.none, logs) => (cfg, logs)
  | (some (s, e), _) =>
    let preset : Option String :=
      match frame_range with
      | .str p => if FRAME_RANGE_PRESETS.contains p then some p else Option.none
      | _ => Option.none
    ({ cfg with frame_range_preset := preset, start_frame := s, end_frame := e }, [])

/-- `BPlayblast.get_start_end_frame` (src/main.py lines 392-396):
a stored preset is re-resolved against the host at read time. -/
def get_start_end_frame (h : HostState) (cfg : Config) : Except PyErr (PyVal × PyVal) :=
  match cfg.frame_range_preset with
  | some p => preset_to_frame_range h p
  | Option.none => .ok (cfg.start_frame, cfg.end_frame)

/-- `BPlayblast.set_encoding` (src/main.py lines 341-349).  NOTE: the source
logs the two validation errors but has no early return, so the container and
encoder are stored regardless; an unknown container raises `KeyError` at
`VIDEO_ENCODER_LOOKUP[container_format]` after logging.  The returned pair is
(messages logged, outcome). -/
def set_encoding (cfg : Config) (container_format encoder : String) :
    List String × Except PyErr Config :=
  let logs1 :=
    if (VIDEO_ENCODER_LOOKUP.map Prod.fst).contains container_format then []
    else ["Invalid container: " ++ container_format ++ ". Expected one of the supported containers."]
  match VIDEO_ENCODER_LOOKUP.lookup container_format with
  | Option.none => (logs1, .error .keyError)
  | some encoders =>
    let logs2 :=
      if encoders.contains encoder then []
      else ["Invalid encoder: " ++ encoder ++ ". Expected one of the supported encoders."]
    (logs1 ++ logs2, .ok { cfg with container_format := container_format, encoder := encoder })

/-- `BPlayblast.set_h264_settings` (src/main.py lines 351-361). -/
def set_h264_settings (cfg : Config) (quality preset : String) : Config × List String :=
  if !(H264_QUALITIES.map Prod.fst).contains quality then
    (cfg, ["Invalid h264 quality: " ++ quality ++ "."])
  else if !H264_PRESETS.contains preset then
    (cfg, ["Invalid h264 preset: " ++ preset ++ "."])
  else
    ({ cfg with h264_quality := quality, h264_preset := preset }, [])

/-- `BPlayblast.set_image_settings` (src/main.py lines 369-373). -/
def set_image_settings (cfg : Config) (quality : Int) : Config × List String :=
  if 0 < quality ∧ quality ≤ 100 then
    ({ cfg with image_quality := quality }, [])
  else
    (cfg, ["Invalid image quality: " ++ toString quality ++ ". Expected value betwenn 1-100"])

/-- `BPlayblast.set_camera` (src/main.py lines 398-403).  A camera name not
known to the host is logged and replaced by `None` before being stored. -/
def set_camera (h : HostState) (cfg : Config) (camera : Option String) :
    Config × List String :=
  match camera with
  | some c =>
    if !h.cameras.contains c then
      ({ cfg with camera := Option.none }, ["Camera does not exist: " ++ c])
    else
      ({ cfg with camera := some c }, [])
  | Option.none => ({ cfg with camera := Option.none }, [])

/-- `BPlayblast.__init__` (src/main.py lines 112-127): the setter calls made
by the constructor with the class defaults, performed against host state `h`.
The pre-constructor placeholder attributes are never observable because every
field is assigned by the default setter chain (given positive host render
resolution). -/
def initConfig (h : HostState) (ffmpeg_path : Option String) : Config :=
  let c0 : Config :=
    { ffmpeg_path := "", camera := Option.none, resolution_preset := Option.none,
      width_height := (.none, .none), frame_range_preset := Option.none,
      start_frame := .none, end_frame := .none, container_format := "",
      encoder := "", h264_quality := "", h264_preset := "", image_quality := 0 }
  let c1 :=
    { c0 with ffmpeg_path :=
        match ffmpeg_path with
        | some p => if p ≠ "" then p else DEFAULT_FFMPEG_PATH
        | Option.none => DEFAULT_FFMPEG_PATH }
  let c2 := (set_camera h c1 Option.none).1
  let c3 := (set_resolution h c2 (.str "Render")).1
  let c4 := (set_frame_range h c3 (.str "Render")).1
  let c5 :=
    match (set_encoding c4 "mp4" "h264").2 with
    | .ok c => c
    | .error _ => c4
  let c6 := (set_h264_settings c5 "High" "fast").1
  (set_image_settings c6 100).1

/- String and path helpers.  Python string methods are re-implemented over
`List Char` so that every definition reduces inside the kernel. -/

/-- Python `str.replace` over character lists: replace every non-overlapping
occurrence of the pattern `p :: ps`, scanning left to right.  The fuel
argument (instantiated with the length of the subject, which bounds the
number of recursive steps) keeps the recursion structural; with that
instantiation the fuel never runs out. -/
def replaceFuel (p : Char) (ps rep : List Char) : Nat → List Char → List Char
  | 0, s => s
  | _ + 1, [] => []
  | fuel + 1, x :: xs =>
    if x == p && ps.isPrefixOf xs then
      rep ++ replaceFuel p ps rep fuel (xs.drop ps.length)
    else x :: replaceFuel p ps rep fuel xs

/-- Python `pattern in s` (substring containment) for a nonempty pattern. -/
def containsL (p : Char) (ps : List Char) : List Char → Bool
  | [] => false
  | x :: xs => (x == p && ps.isPrefixOf xs) || containsL p ps xs

/-- Python `s.replace(pat, rep)` (all occurrences; no-op for an empty pattern). -/
def pyReplace (s pat rep : String) : String :=
  match pat.toList with
  | [] => s
  | p :: ps => String.mk (replaceFuel p ps rep.toList s.toList.length s.toList)

/-- Python `pat in s`. -/
def pyContains (s pat : String) : Bool :=
  match pat.toList with
  | [] => true
  | p :: ps => containsL p ps s.toList

/-- Split a character list on a separator character. -/
def splitChar (c : Char) : List Char → List (List Char)
  | [] => [[]]
  | x :: xs =>
    let r := splitChar c xs
    if x == c then [] :: r
    else
      match r with
      | h :: t => (x :: h) :: t
      | [] => [[x]]

/-- `posixpath.normpath`: collapse `.` components, empty components and
resolvable `..` components, preserving the leading-slash count. -/
def normpath (p : String) : String :=
  if p = "" then "."
  else
    let cs := p.toList
    let initialSlashes : Nat :=
      if cs.take 2 = ['/', '/'] ∧ cs.take 3 ≠ ['/', '/', '/'] then 2
      else if cs.take 1 = ['/'] then 1
      else 0
    let comps := (splitChar '/' cs).map String.mk
    let newComps := comps.foldl
      (fun acc comp =>
        if comp = "" ∨ comp = "." then acc
        else if comp ≠ ".." ∨ (initialSlashes = 0 ∧ acc = []) ∨ acc.getLast? = some ".." then
          acc ++ [comp]
        else
          acc.dropLast)
      []
    let joined := String.intercalate "/" newComps
    let res := String.mk (List.replicate initialSlashes '/') ++ joined
    if res = "" then "." else res

/-- `posixpath.join` for two components, as used by the source. -/
def pathJoin (a b : String) : String :=
  if b.toList.take 1 = ['/'] then b
  else if a = "" ∨ a.toList.getLast? = some '/' then a ++ b
  else a ++ "/" ++ b

/-- `os.path.splitext(s)[0]` restricted to ordinary names (the leading-dot
special case of `splitext` does not arise for Maya scene names). -/
def splitextRoot (s : String) : String :=
  match (splitChar '.' s.toList).map String.mk with
  | [x] => x
  | parts => String.intercalate "." parts.dropLast

/-- `BPlayblast.get_scene_name` (src/main.py lines 428-435). -/
def get_scene_name (h : HostState) : String :=
  if h.sceneShortName = "" then "untitled" else splitextRoot h.sceneShortName

/-- `BPlayblast.get_project_dir_path` (src/main.py lines 437-438). -/
def get_project_dir_path (h : HostState) : String := h.projectDir

/-- `BPlayblast.resolve_output_directory_path` (src/main.py lines 471-475):
substitute the literal token `{project}` with the project root. -/
def resolve_output_directory_path (h : HostState) (dir_path : String) : String :=
  if pyContains dir_path "\x7bproject\x7d" then
    pyReplace dir_path "\x7bproject\x7d" (get_project_dir_path h)
  else dir_path

/-- `BPlayblast.resolve_output_filename` (src/main.py lines 477-481):
substitute the literal token `{scene}` with the scene base name. -/
def resolve_output_filename (h : HostState) (filename : String) : String :=
  if pyContains filename "\x7bscene\x7d" then
    pyReplace filename "\x7bscene\x7d" (get_scene_name h)
  else filename

/- Frame-rate derivation. -/

/-- Numeric value of a digit list (most significant first). -/
def natOfDigits (ds : List Char) : Nat :=
  ds.foldl (fun a c => a * 10 + (c.toNat - 48)) 0

/-- Exponent part of a Python float literal (after `e`/`E`). -/
def pyFloatExp (cs : List Char) : Option ℚ :=
  let sgnAndRest : Bool × List Char :=
    match cs with
    | '+' :: t => (false, t)
    | '-' :: t => (true, t)
    | _ => (false, cs)
  let ds := sgnAndRest.2.takeWhile Char.isDigit
  let rest := sgnAndRest.2.dropWhile Char.isDigit
  if ds.isEmpty ∨ !rest.isEmpty then Option.none
  else
    let e := natOfDigits ds
    some (if sgnAndRest.1 then (1 : ℚ) / 10 ^ e else (10 : ℚ) ^ e)

/-- Core of Python `float(s)` on decimal literals: optional sign, digits with
an optional fraction, optional exponent.  (The `inf`/`nan` spellings,
surrounding whitespace and digit underscores accepted by Python never arise
from the strings the source passes in and are not modelled.)  The value is
exact as a rational. -/
def pyFloatCore (cs : List Char) : Option ℚ :=
  let sgnAndRest : ℚ × List Char :=
    match cs with
    | '+' :: t => (1, t)
    | '-' :: t => (-1, t)
    | _ => (1, cs)
  let sgn := sgnAndRest.1
  let cs1 := sgnAndRest.2
  let intDs := cs1.takeWhile Char.isDigit
  let rest1 := cs1.dropWhile Char.isDigit
  match rest1 with
  | [] => if intDs.isEmpty then Option.none else some (sgn * (natOfDigits intDs : ℚ))
  | '.' :: rest2 =>
    let fracDs := rest2.takeWhile Char.isDigit
    let rest3 := rest2.dropWhile Char.isDigit
    if intDs.isEmpty ∧ fracDs.isEmpty then Option.none
    else
      let mant : ℚ := (natOfDigits intDs : ℚ) + (natOfDigits fracDs : ℚ) / 10 ^ fracDs.length
      match rest3 with
      | [] => some (sgn * mant)
      | c :: rest4 =>
        if c = 'e' ∨ c = 'E' then (pyFloatExp rest4).map (fun ex => sgn * mant * ex)
        else Option.none
  | c :: rest2 =>
    if (c = 'e' ∨ c = 'E') ∧ !intDs.isEmpty then
      (pyFloatExp rest2).map (fun ex => sgn * (natOfDigits intDs : ℚ) * ex)
    else Option.none

/-- Python `float(s)`: a `ValueError` on anything the literal grammar rejects. -/
def pyFloat (s : String) : Except PyErr ℚ :=
  match pyFloatCore s.toList with
  | some q => .ok q
  | Option.none => .error .valueError

/-- Drop the last `n` characters of a string (Python `s[0:-n]` for `n > 0`). -/
def strDropRight (s : String) (n : Nat) : String :=
  String.mk (s.toList.take (s.toList.length - n))

/-- The `if`/`elif` chain of `BPlayblast.get_frame_rate` (src/main.py lines
220-242) as a function of the current-unit string: seven named units map to
fixed rates, a trailing `"fps"` routes the prefix through `float`, and any
other unit raises `RuntimeError`. -/
def frame_rate_of_unit (rate_str : String) : Except PyErr ℚ :=
  if rate_str = "game" then .ok 15
  else if rate_str = "film" then .ok 24
  else if rate_str = "pal" then .ok 25
  else if rate_str = "ntsc" then .ok 30
  else if rate_str = "show" then .ok 48
  else if rate_str = "palf" then .ok 50
  else if rate_str = "ntscf" then .ok 60
  else if ['f', 'p', 's'].isSuffixOf rate_str.toList then pyFloat (strDropRight rate_str 3)
  else .error (.runtimeError ("Unsupported frame rate: " ++ rate_str))

/-- `BPlayblast.get_frame_rate`: query the host time unit, then map it. -/
def get_frame_rate (h : HostState) : Except PyErr ℚ :=
  frame_rate_of_unit h.timeUnit

/-- `BPlayblast.get_audio_attributes` (src/main.py lines 244-254).  When a
sound node is present but its file does not exist, control falls off the end
of the function: Python returns the bare `None` (modelled `Option.none`), not
a two-element tuple.  Without a sound node the pair `(None, None)` is
returned. -/
def get_audio_attributes (h : HostState) : Option (PyVal × PyVal) :=
  match h.soundNode with
  | some _ =>
    if h.soundFileExists then some (.str h.soundFilename, .float h.soundOffset)
    else Option.none
  | Option.none => some (.none, .none)

/-- `BPlayblast.get_audio_offset_in_sec` (src/main.py lines 256-257). -/
def get_audio_offset_in_sec (start_frame audio_frame_offset : PyVal) (frame_rate : ℚ) :
    Except PyErr PyVal := do
  let d ← pySub start_frame audio_frame_offset
  pyDiv d (.float frame_rate)

/-- Left-pad a digit string with zeros to width `k`. -/
def padZeros (s : String) (k : Nat) : String :=
  String.mk (List.replicate (k - s.toList.length) '0') ++ s

/-- Python `str(x)` for a float, exact on values with a finite decimal
expansion of at most 12 digits (every float the modelled code formats — named
frame rates and decimal `"<n>fps"` rates — is of this form). -/
def formatFloat (q : ℚ) : String :=
  if q.den = 1 then toString q.num ++ ".0"
  else
    match (List.range 13).find? (fun k => k != 0 && 10 ^ k % q.den == 0) with
    | some k =>
      let sgn := if q.num < 0 then "-" else ""
      let scaled := q.num.natAbs * (10 ^ k / q.den)
      let ip := scaled / 10 ^ k
      let fp := scaled % 10 ^ k
      sgn ++ toString ip ++ "." ++ padZeros (toString fp) k
    | Option.none => toString q

/-- Python `str(v)` / f-string interpolation for the values the source
formats into the ffmpeg command (the container reprs never occur there). -/
def pyStr : PyVal → String
  | .none => "None"
  | .int n => toString n
  | .float q => formatFloat q
  | .str s => s
  | .tuple _ => "(...)"
  | .list _ => "[...]"

/-- `BPlayblast.encode_h264` (src/main.py lines 193-218), as the ffmpeg
command string it builds (the subsequent `log_output` and
`execute_ffmpeg_cmd` calls are attached by `executeMain`).  Faithful to the
source, including its two defects:
* unpacking `get_audio_attributes()` raises `TypeError` when that method
  returns the bare `None` (sound node present, file missing);
* when an audio path is present, line 212 appends to the undefined name
  `ffmpeg` (a typo for `ffmpeg_cmd`), raising `NameError` before the command
  is completed or run. -/
def encode_h264 (h : HostState) (cfg : Config) (source_path output_path : String)
    (start_frame : PyVal) : Except PyErr String := do
  let frame_rate ← get_frame_rate h
  let some audio := get_audio_attributes h | throw PyErr.typeError
  let audio_file_path := audio.1
  let audio_frame_offset := audio.2
  let audioOffsetStr : String ←
    if audio_file_path.truthy then do
      let o ← get_audio_offset_in_sec start_frame audio_frame_offset frame_rate
      pure (pyStr o)
    else pure ""
  let crf : Int ←
    match H264_QUALITIES.lookup cfg.h264_quality with
    | some c => pure c
    | Option.none => throw PyErr.keyError
  let preset := cfg.h264_preset
  let cmd1 := cfg.ffmpeg_path ++ " -y -framerate " ++ formatFloat frame_rate
    ++ " -i \x22" ++ source_path ++ "\x22"
  let cmd2 :=
    if audio_file_path.truthy then
      cmd1 ++ " -ss " ++ audioOffsetStr ++ " -i \x22" ++ pyStr audio_file_path ++ "\x22"
    else cmd1
  let cmd3 := cmd2 ++ " -c:v libx264 -crf:v " ++ toString crf ++ " -preset:v " ++ preset
    ++ " -profile high -level 4.0 -pix_fmt yuv420p"
  if audio_file_path.truthy then
    throw PyErr.nameError
  else
    pure (cmd3 ++ " \x22" ++ output_path ++ "\x22")

/- The capture protocol `execute`. -/

/-- The options mapping handed to `cmds.playblast` (src/main.py lines
550-565). -/
structure PlayblastOptions where
  filename : String
  widthHeight : PyVal
  percent : Int
  startTime : PyVal
  endTime : PyVal
  clearCache : Bool
  forceOverwrite : Bool
  format : String
  compression : String
  quality : Int
  indexFromZero : Bool
  framePadding : Int
  showOrnaments : Bool
  viewer : Bool

/-- Observable side effects of one `execute` run, in program order.  Logging
calls carry their message; `logPlayblastOptions` stands for the
`log_output(f"Playblast options: {options}")` call with its structured
payload. -/
inductive Event where
  | logError (msg : String)
  | logWarning (msg : String)
  | logOutput (msg : String)
  | logPlayblastOptions (opts : PlayblastOptions)
  | setActiveCamera (camera : String)
  | playblast (opts : PlayblastOptions)
  | runFfmpeg (cmd : String)
  | removeTempDir (path : String)
  | openViewerApp (exe : String) (path : String)
  | openViewerUrl (path : String)

/-- `BPlayblast.requires_ffmpeg` (src/main.py lines 499-500). -/
def requires_ffmpeg (cfg : Config) : Bool :=
  cfg.container_format != "Image"

/-- `BPlayblast.validate_ffmpeg` (src/main.py lines 159-170). -/
def validate_ffmpeg (h : HostState) (cfg : Config) : Bool × List Event :=
  if cfg.ffmpeg_path = "" then
    (false, [.logError "ffmpeg executable path not set"])
  else if !pathExists h cfg.ffmpeg_path then
    (false, [.logError ("ffmpeg executable path does not exists: " ++ cfg.ffmpeg_path)])
  else if h.existingDirs.contains cfg.ffmpeg_path then
    (false, [.logError ("Invalid ffmpeg path: " ++ cfg.ffmpeg_path)])
  else (true, [])

/-- `BPlayblast.remove_temp_dir` (src/main.py lines 259-268): delete the
temporary sequence directory, logging a warning when the host cannot remove
it. -/
def removeTempDirEvents (h : HostState) (temp_dir_path : String) : List Event :=
  [.removeTempDir temp_dir_path] ++
    (if h.tempDirRemoveOk then []
     else [.logWarning ("Failed to remove temporary directory: " ++ temp_dir_path)])

/-- `BPlayblast.open_in_viewer` (src/main.py lines 270-281). -/
def openInViewerEvents (h : HostState) (cfg : Config) (path : String) : List Event :=
  if !pathExists h path then
    [.logError ("Failed to open in viewer. File does not exists : " ++ path)]
  else if (cfg.container_format = "mov" ∨ cfg.container_format = "mp4") then
    match h.quicktimeViewer with
    | some exe =>
      if exe ≠ "" then [.openViewerApp exe path] else [.openViewerUrl path]
    | Option.none => [.openViewerUrl path]
  else [.openViewerUrl path]

/-- Tail of `BPlayblast.execute` (src/main.py lines 547-609), from the
resolution/frame-range reads to the end, parameterised by the values the
container branch computed.  The caller has already established that an active
viewport panel exists, so `get_active_camera` returns the panel camera
without logging.  The result is the event list together with an uncaught
exception, if any. -/
def executeMain (h : HostState) (cfg : Config) (filename : String) (padding : Int)
    (show_in_viewer : Bool) (output_path playblast_output_dir playblast_output : String)
    (force_overwrite : Bool) (compression : String) (image_quality : Int)
    (index_from_zero viewer show_ornaments : Bool) : List Event × Option PyErr :=
  match get_resolution_width_height h cfg with
  | .error e => ([], some e)
  | .ok width_height =>
  match get_start_end_frame h cfg with
  | .error e => ([], some e)
  | .ok se =>
  let start_frame := se.1
  let end_frame := se.2
  let opts : PlayblastOptions :=
    { filename := playblast_output, widthHeight := width_height, percent := 100,
      startTime := start_frame, endTime := end_frame, clearCache := true,
      forceOverwrite := force_overwrite, format := "image", compression := compression,
      quality := image_quality, indexFromZero := index_from_zero, framePadding := padding,
      showOrnaments := show_ornaments, viewer := viewer }
  let ev0 : List Event := [.logPlayblastOptions opts]
  let orig_camera := h.panelCamera
  let camera :=
    match cfg.camera with
    | some c => c
    | Option.none => orig_camera
  if !h.cameras.contains camera then
    (ev0 ++ [.logError ("Camera does not exists: " ++ camera)], Option.none)
  else
  let ev1 := ev0 ++ [.setActiveCamera camera, .playblast opts]
  if !h.playblastSucceeds then
    (ev1 ++ [.logError "Failed to created playblast. See script editor for details",
             .setActiveCamera orig_camera], Option.none)
  else
  let ev2 := ev1 ++ [.setActiveCamera orig_camera]
  if requires_ffmpeg cfg then
    let source_path :=
      playblast_output_dir ++ "/" ++ filename ++ ".%0" ++ toString padding ++ "d.png"
    if cfg.encoder = "h264" then
      match encode_h264 h cfg source_path output_path start_frame with
      | .error e => (ev2, some e)
      | .ok cmd =>
        let ev3 := ev2 ++ [.logOutput cmd, .runFfmpeg cmd]
        let ev4 := ev3 ++ removeTempDirEvents h playblast_output_dir
        if show_in_viewer then (ev4 ++ openInViewerEvents h cfg output_path, Option.none)
        else (ev4, Option.none)
    else
      (ev2 ++ [.logError ("Encoding failed. Unsupported encoder (" ++ cfg.encoder
          ++ ") for container (" ++ cfg.container_format ++ ")")]
          ++ removeTempDirEvents h playblast_output_dir, Option.none)
  else (ev2, Option.none)

/-- The final output path `{dir}/{filename}.{container}` computed by
`execute` for an external-encoder container (src/main.py line 526), as a
function of the raw arguments. -/
def executeOutputPath (h : HostState) (cfg : Config) (output_dir filename : String) : String :=
  normpath (pathJoin (resolve_output_directory_path h output_dir)
    (resolve_output_filename h filename ++ "." ++ cfg.container_format))

/-- `BPlayblast.execute` (src/main.py lines 502-609).  Every early `return`
of the source is a branch producing the events logged so far; the branch on
the container type mirrors lines 525-545 and the remainder is
`executeMain`. -/
def execute (h : HostState) (cfg : Config) (output_dir filename : String)
    (padding : Int) (show_ornaments show_in_viewer overwrite : Bool) :
    List Event × Option PyErr :=
  if requires_ffmpeg cfg ∧ (validate_ffmpeg h cfg).1 = false then
    ((validate_ffmpeg h cfg).2 ++
      [.logError "ffmpeg executable is not configured. See script editor for details."],
      Option.none)
  else if h.viewportPanel = Option.none then
    ([.logError "Failed to get active view",
      .logError "An active viewport is not selected. Select the viewport and retry"],
      Option.none)
  else if output_dir = "" then
    ([.logError "Output directory path not set"], Option.none)
  else if filename = "" then
    ([.logError "Output file name not set"], Option.none)
  else
    let rOd := resolve_output_directory_path h output_dir
    let rFn := resolve_output_filename h filename
    let pad := if padding ≤ 0 then DEFAULT_PADDING else padding
    if requires_ffmpeg cfg then
      let output_path := normpath (pathJoin rOd (rFn ++ "." ++ cfg.container_format))
      if overwrite = false ∧ pathExists h output_path = true then
        ([.logError "Output file already exists. Enable overwrite to ignore."], Option.none)
      else
        let playblast_output_dir := rOd ++ "/playblast_temp"
        executeMain h cfg rFn pad show_in_viewer output_path playblast_output_dir
          (normpath (pathJoin playblast_output_dir rFn)) true "png" 100 true false
          show_ornaments
    else
      executeMain h cfg rFn pad show_in_viewer "" ""
        (normpath (pathJoin rOd rFn)) overwrite cfg.encoder cfg.image_quality false
        show_in_viewer show_ornaments

/-- Does the trace contain a `playblast` (host recorder) invocation? -/
def hasPlayblast (tr : List Event) : Bool :=
  tr.any fun e =>
    match e with
    | .playblast _ => true
    | _ => false

/-- Does the trace contain a `runFfmpeg` (external encoder) invocation? -/
def hasRunFfmpeg (tr : List Event) : Bool :=
  tr.any fun e =>
    match e with
    | .runFfmpeg _ => true
    | _ => false

/-- Does the trace contain a logged error? -/
def hasLogError (tr : List Event) : Bool :=
  tr.any fun e =>
    match e with
    | .logError _ => true
    | _ => false

/- Concrete host fixtures used to instantiate the theorems below. -/

/-- A well-behaved host: render resolution 1920x1080, film time unit, an
active viewport looking through "persp", no sound node, the default ffmpeg
binary present on disk, and a recorder that succeeds. -/
def hBase : HostState :=
  { renderWidth := 1920, renderHeight := 1080,
    renderStartFrame := 1, renderEndFrame := 10,
    playbackMin := 1, playbackMax := 120,
    animationStart := 1, animationEnd := 200,
    timeUnit := "film",
    cameras := ["persp", "rendercam"],
    viewportPanel := some "modelPanel4",
    panelCamera := "persp",
    soundNode := Option.none,
    soundFilename := "", soundFileExists := false, soundOffset := 0,
    projectDir := "E:/project/",
    sceneShortName := "shot.ma",
    existingFiles := ["D:/programs/ffmpeg/bin/ffmpeg.exe"],
    existingDirs := [],
    playblastSucceeds := true,
    quicktimeViewer := Option.none,
    tempDirRemoveOk := true }

/-- The seven named time units recognised by `get_frame_rate`. -/
def NAMED_TIME_UNITS : List String :=
  ["game", "film", "pal", "ntsc", "show", "palf", "ntscf"]

/-- Is the argument a string naming a key of `RESOLUTION_LOOKUP` (the inputs
for which `set_resolution` takes its preset branch)? -/
def isResolutionPresetStr : PyVal → Bool
  | .str s => (RESOLUTION_LOOKUP.map Prod.fst).contains s
  | _ => false

/-- Host whose render resolution differs from `hBase`: used to observe
read-time re-resolution of the "Render" preset. -/
def hAltRender : HostState := { hBase with renderWidth := 1280, renderHeight := 720 }

/-- Host with a sound node whose audio file exists. -/
def hAudio : HostState :=
  { hBase with
    soundNode := some "sound1"
    soundFilename := "E:/audio/track.wav"
    soundFileExists := true }

/-- Host with a sound node whose audio file does not exist on disk. -/
def hNoAudioFile : HostState :=
  { hBase with
    soundNode := some "sound1"
    soundFilename := "E:/audio/track.wav"
    soundFileExists := false }

/-- Host whose project root is the empty string, so that `{project}`
substitutes to the empty string. -/
def hEmptyProject : HostState := { hBase with projectDir := "" }

/-- A configuration using the "Image" container (constructed through
`set_encoding`, which accepts the pair ("Image", "png")). -/
def cfgImage : Config :=
  match (set_encoding (initConfig hEmptyProject Option.none) "Image" "png").2 with
  | .ok c => c
  | .error _ => initConfig hEmptyProject Option.none

/-- Host on which the final output file `E:/out/shot.mp4` already exists. -/
def hOutputExists : HostState :=
  { hBase with existingFiles := ["D:/programs/ffmpeg/bin/ffmpeg.exe", "E:/out/shot.mp4"] }

/-- Host whose recorder (`cmds.playblast`) call raises. -/
def hRecorderFails : HostState := { hBase with playblastSucceeds := false }

/-- Default configuration with the frame-range preset switched to
"Playback". -/
def cfgPlayback : Config :=
  (set_frame_range hBase (initConfig hBase Option.none) (.str "Playback")).1

/- General-purpose lemmas about traces. -/

theorem hasPlayblast_append (a b : List Event) :
    hasPlayblast (a ++ b) = (hasPlayblast a || hasPlayblast b) :=
  List.any_append

theorem hasRunFfmpeg_append (a b : List Event) :
    hasRunFfmpeg (a ++ b) = (hasRunFfmpeg a || hasRunFfmpeg b) :=
  List.any_append

theorem hasLogError_append (a b : List Event) :
    hasLogError (a ++ b) = (hasLogError a || hasLogError b) :=
  List.any_append

theorem validate_ffmpeg_events (h : HostState) (cfg : Config) :
    hasPlayblast (validate_ffmpeg h cfg).2 = false ∧
    hasRunFfmpeg (validate_ffmpeg h cfg).2 = false := by
  unfold validate_ffmpeg
  split_ifs <;> exact ⟨rfl, rfl⟩

/-- A successful preset lookup implies the name is a `RESOLUTION_LOOKUP` key. -/
theorem preset_to_resolution_ok_mem (h : HostState) (s : String) (v : PyVal)
    (hok : preset_to_resolution h s = .ok v) :
    (RESOLUTION_LOOKUP.map Prod.fst).contains s = true := by
  by_cases h1 : s = "Render"
  · subst h1; rfl
  · by_cases h2 : s = "HD 1080"
    · subst h2; rfl
    · by_cases h3 : s = "HD 720"
      · subst h3; rfl
      · by_cases h4 : s = "HD 540"
        · subst h4; rfl
        · exfalso
          have hlk : List.lookup s RESOLUTION_LOOKUP = Option.none := by
            have e1 : (s == "Render") = false := by simp [h1]
            have e2 : (s == "HD 1080") = false := by simp [h2]
            have e3 : (s == "HD 720") = false := by simp [h3]
            have e4 : (s == "HD 540") = false := by simp [h4]
            simp [RESOLUTION_LOOKUP, List.lookup, e1, e2, e3, e4]
          simp only [preset_to_resolution, if_neg h1, hlk] at hok
          exact Except.noConfusion hok

/-- Claim C1.  The spec claims every configuration setter leaves the stored
value unchanged on invalid input, with no exception propagating; in
particular `set_encoding("mp4", "jpg")` should retain the previous
container/encoder pair.  The source of `set_encoding` (src/main.py lines
341-349) logs both validation errors but is missing the early returns its
sibling setters have: starting from the constructor defaults
("mp4", "h264"), the call logs an error and nevertheless stores the invalid
pair ("mp4", "jpg"); moreover an unknown container such as "avi" raises an
uncaught `KeyError` at `VIDEO_ENCODER_LOOKUP[container_format]`. -/
theorem set_encoding_invalid_pair_stored :
    (initConfig hBase Option.none).container_format = "mp4" ∧
    (initConfig hBase Option.none).encoder = "h264" ∧
    (set_encoding (initConfig hBase Option.none) "mp4" "jpg").1 ≠ [] ∧
    (set_encoding (initConfig hBase Option.none) "mp4" "jpg").2 =
      .ok { initConfig hBase Option.none with encoder := "jpg" } ∧
    (set_encoding (initConfig hBase Option.none) "avi" "h264").2 = .error .keyError := by
  refine ⟨rfl, rfl, ?_, rfl, rfl⟩
  decide

/-- Claim C3.  The spec claims that with an audio file present the ffmpeg
command built and run by `encode_h264` contains the audio input and the
`-filter_complex "[1:0] apad" -shortest` parts.  In the source (src/main.py
line 212) the audio-filter append is applied to the undefined name `ffmpeg`
(a typo for `ffmpeg_cmd`), so whenever audio is present the method raises
`NameError` and no command is run.  Without audio the command is built and
has exactly the claimed shape with the two audio parts omitted. -/
theorem encode_h264_audio_name_error :
    encode_h264 hAudio (initConfig hAudio Option.none) "src.%04d.png" "out.mp4" (.int 1)
      = .error .nameError ∧
    encode_h264 hBase (initConfig hBase Option.none) "src.%04d.png" "out.mp4" (.int 1)
      = .ok ("D:/programs/ffmpeg/bin/ffmpeg.exe -y -framerate 24.0 -i \x22src.%04d.png\x22 -c:v libx264 -crf:v 20 -preset:v fast -profile high -level 4.0 -pix_fmt yuv420p \x22out.mp4\x22") := by
  constructor <;> decide

/-- Claim C4 counterexample.  The claim states an explicit pair is stored
only after being validated to consist of orderable integers, a failing pair
being rejected with a logged error.  The pair `("a", "b")` consists of
strings, not integers, yet `set_frame_range` stores it verbatim and logs
nothing. -/
theorem set_frame_range_unvalidated_pair_cex :
    (set_frame_range hBase (initConfig hBase Option.none)
      (.tuple [.str "a", .str "b"])).1.start_frame = .str "a" ∧
    (set_frame_range hBase (initConfig hBase Option.none)
      (.tuple [.str "a", .str "b"])).1.end_frame = .str "b" ∧
    (set_frame_range hBase (initConfig hBase Option.none)
      (.tuple [.str "a", .str "b"])).2 = [] ∧
    PyVal.isInt (.str "a") = false :=
  ⟨rfl, rfl, rfl, rfl⟩

/-- Claim C4 (amended).  An explicit pair passed to `set_frame_range`
bypasses preset lookup and is stored verbatim with no type or ordering
validation at all; the only rejected pairs are those whose element access
raises (fewer than two elements), and those are rejected with a logged error
leaving the stored frame range (and preset marker) unchanged. -/
theorem set_frame_range_pair_verbatim (h : HostState) (cfg : Config) (xs : List PyVal) :
    (∀ a b rest, xs = a :: b :: rest →
      set_frame_range h cfg (.tuple xs) =
        ({ cfg with
            frame_range_preset := Option.none
            start_frame := a
            end_frame := b }, [])) ∧
    (xs.length < 2 →
      set_frame_range h cfg (.tuple xs) =
        (cfg,
          ["Invalid frame range. Expected one of (start_frame, end_frame) or a frame range preset name."])) := by
  constructor
  · rintro a b rest rfl
    rfl
  · intro hlen
    match xs, hlen with
    | [], _ => rfl
    | [a], _ => rfl

/-- Witness for the amended C4 claim at concrete inputs. -/
theorem set_frame_range_pair_verbatim_witness :
    ([PyVal.int 10, PyVal.int 20] = PyVal.int 10 :: PyVal.int 20 :: []) ∧
    set_frame_range hBase (initConfig hBase Option.none) (.tuple [.int 10, .int 20]) =
      ({ initConfig hBase Option.none with
          frame_range_preset := Option.none
          start_frame := .int 10
          end_frame := .int 20 }, []) ∧
    ([PyVal.int 5] : List PyVal).length < 2 ∧
    set_frame_range hBase (initConfig hBase Option.none) (.tuple [.int 5]) =
      (initConfig hBase Option.none,
        ["Invalid frame range. Expected one of (start_frame, end_frame) or a frame range preset name."]) :=
  ⟨rfl,
   (set_frame_range_pair_verbatim hBase (initConfig hBase Option.none)
      [.int 10, .int 20]).1 (.int 10) (.int 20) [] rfl,
   by decide,
   (set_frame_range_pair_verbatim hBase (initConfig hBase Option.none) [.int 5]).2
     (by decide)⟩

/-- Claim C9.  `get_frame_rate` maps each named host time unit to its fixed
frames-per-second value, routes any other string ending in "fps" through
Python `float` applied to the prefix, and raises `RuntimeError` for every
remaining unit string. -/
theorem get_frame_rate_mapping (h : HostState) :
    (h.timeUnit = "game" → get_frame_rate h = .ok 15) ∧
    (h.timeUnit = "film" → get_frame_rate h = .ok 24) ∧
    (h.timeUnit = "pal" → get_frame_rate h = .ok 25) ∧
    (h.timeUnit = "ntsc" → get_frame_rate h = .ok 30) ∧
    (h.timeUnit = "show" → get_frame_rate h = .ok 48) ∧
    (h.timeUnit = "palf" → get_frame_rate h = .ok 50) ∧
    (h.timeUnit = "ntscf" → get_frame_rate h = .ok 60) ∧
    (h.timeUnit ∉ NAMED_TIME_UNITS →
      ['f', 'p', 's'].isSuffixOf h.timeUnit.toList = true →
      get_frame_rate h = pyFloat (strDropRight h.timeUnit 3)) ∧
    (h.timeUnit ∉ NAMED_TIME_UNITS →
      ['f', 'p', 's'].isSuffixOf h.timeUnit.toList = false →
      ∃ m, get_frame_rate h = .error (.runtimeError m)) := by
  refine ⟨?_, ?_, ?_, ?_, ?_, ?_, ?_, ?_, ?_⟩
  · intro h1; simp [get_frame_rate, frame_rate_of_unit, h1]
  · intro h1; simp [get_frame_rate, frame_rate_of_unit, h1]
  · intro h1; simp [get_frame_rate, frame_rate_of_unit, h1]
  · intro h1; simp [get_frame_rate, frame_rate_of_unit, h1]
  · intro h1; simp [get_frame_rate, frame_rate_of_unit, h1]
  · intro h1; simp [get_frame_rate, frame_rate_of_unit, h1]
  · intro h1; simp [get_frame_rate, frame_rate_of_unit, h1]
  · intro hmem hsuf
    simp only [NAMED_TIME_UNITS, List.mem_cons, List.not_mem_nil, or_false, not_or] at hmem
    obtain ⟨h1, h2, h3, h4, h5, h6, h7⟩ := hmem
    unfold get_frame_rate frame_rate_of_unit
    rw [if_neg h1, if_neg h2, if_neg h3, if_neg h4, if_neg h5, if_neg h6, if_neg h7,
      if_pos hsuf]
  · intro hmem hsuf
    simp only [NAMED_TIME_UNITS, List.mem_cons, List.not_mem_nil, or_false, not_or] at hmem
    obtain ⟨h1, h2, h3, h4, h5, h6, h7⟩ := hmem
    refine ⟨"Unsupported frame rate: " ++ h.timeUnit, ?_⟩
    unfold get_frame_rate frame_rate_of_unit
    rw [if_neg h1, if_neg h2, if_neg h3, if_neg h4, if_neg h5, if_neg h6, if_neg h7,
      if_neg (show ¬(['f', 'p', 's'].isSuffixOf h.timeUnit.toList = true) by
        rw [hsuf]; exact Bool.false_ne_true)]

/-- Witness for C9 at concrete time units: a named unit, an "fps" literal
(including the float parse of its numeric prefix) and an unsupported unit. -/
theorem get_frame_rate_mapping_witness :
    ({ hBase with timeUnit := "ntsc" } : HostState).timeUnit = "ntsc" ∧
    get_frame_rate { hBase with timeUnit := "ntsc" } = .ok 30 ∧
    get_frame_rate { hBase with timeUnit := "23.976fps" } =
      pyFloat (strDropRight "23.976fps" 3) ∧
    (pyFloat (strDropRight "23.976fps" 3)).toOption.isSome = true ∧
    (∃ m, get_frame_rate { hBase with timeUnit := "weird" } = .error (.runtimeError m)) :=
  ⟨rfl,
   (get_frame_rate_mapping { hBase with timeUnit := "ntsc" }).2.2.2.1 rfl,
   (get_frame_rate_mapping { hBase with timeUnit := "23.976fps" }).2.2.2.2.2.2.2.1
     (by decide) (by decide),
   by decide,
   (get_frame_rate_mapping { hBase with timeUnit := "weird" }).2.2.2.2.2.2.2.2
     (by decide) (by decide)⟩

/-- Claim C10.  When a sound node is present but its audio file path does
not exist on disk, `get_audio_attributes` falls off the end of the function
and returns the bare `None` rather than a two-element pair, so the tuple
unpacking at the start of `encode_h264` raises `TypeError` instead of
proceeding without audio. -/
theorem audio_missing_file_encode_raises (h : HostState) (n : String)
    (hs : h.soundNode = some n) (hf : h.soundFileExists = false) :
    get_audio_attributes h = Option.none ∧
    ∀ (cfg : Config) (source output : String) (start : PyVal) (r : ℚ),
      get_frame_rate h = .ok r →
      encode_h264 h cfg source output start = .error .typeError := by
  have hga : get_audio_attributes h = Option.none := by
    simp [get_audio_attributes, hs, hf]
  refine ⟨hga, ?_⟩
  intro cfg source output start r hr
  show encode_h264 h cfg source output start = .error .typeError
  simp only [encode_h264, hr, hga]
  rfl

/-- On any logged-error outcome, the store tail of `set_resolution` leaves
the attributes exactly as they were after the preset probe. -/
theorem set_resolution_store_err (cfg2 : Config) (wh : PyVal)
    (hne : (set_resolution_store cfg2 wh).2 ≠ []) :
    (set_resolution_store cfg2 wh).1 = cfg2 := by
  revert hne
  unfold set_resolution_store
  split
  · split_ifs
    · intro _; rfl
    · intro hcon; exact absurd rfl hcon
  · intro _; rfl

/-- Claim C2 counterexample.  The claim states that after an invalid
`set_resolution` call the value returned by `get_resolution_width_height` is
the same as before the call, including when the prior resolution was a named
preset.  Start from the default configuration (preset "Render", stored while
the host render resolution was 1920x1080) and read against a host whose
render resolution is now 1280x720: before the invalid call the getter
re-resolves the preset and returns (1280, 720); the invalid call
`set_resolution((0, 0))` logs an error but has already cleared
`_resolution_preset`, so afterwards the getter returns the pair (1920, 1080)
cached at set-time — a different value. -/
theorem set_resolution_invalid_changes_get_cex :
    (initConfig hBase Option.none).resolution_preset = some "Render" ∧
    (set_resolution hAltRender (initConfig hBase Option.none)
      (.tuple [.int 0, .int 0])).2 ≠ [] ∧
    get_resolution_width_height hAltRender (initConfig hBase Option.none) =
      .ok (.tuple [.int 1280, .int 720]) ∧
    get_resolution_width_height hAltRender
      (set_resolution hAltRender (initConfig hBase Option.none)
        (.tuple [.int 0, .int 0])).1 =
      .ok (.tuple [.int 1920, .int 1080]) ∧
    get_resolution_width_height hAltRender (initConfig hBase Option.none) ≠
      get_resolution_width_height hAltRender
        (set_resolution hAltRender (initConfig hBase Option.none)
          (.tuple [.int 0, .int 0])).1 := by
  have h1 : get_resolution_width_height hAltRender (initConfig hBase Option.none) =
      .ok (.tuple [.int 1280, .int 720]) := rfl
  have h2 : get_resolution_width_height hAltRender
      (set_resolution hAltRender (initConfig hBase Option.none)
        (.tuple [.int 0, .int 0])).1 =
      .ok (.tuple [.int 1920, .int 1080]) := rfl
  refine ⟨rfl, by decide, h1, h2, ?_⟩
  intro hcon
  rw [h1, h2] at hcon
  simp only [Except.ok.injEq, PyVal.tuple.injEq, List.cons.injEq, PyVal.int.injEq] at hcon
  exact absurd hcon.1 (by decide)

/-- Claim C2 (amended).  For every invalid argument to `set_resolution` an
error is logged and the stored explicit width/height pair is unchanged, but
the stored preset marker is not preserved: it is cleared for every non-preset
argument (and can be overwritten when a preset name resolves to non-positive
host values).  Consequently `get_resolution_width_height` afterwards returns
the pair cached at the last successful set; this coincides with its pre-call
value exactly when no preset marker was stored before the call. -/
theorem set_resolution_invalid_preserves_pair (h : HostState) (cfg : Config) (r : PyVal)
    (herr : (set_resolution h cfg r).2 ≠ []) :
    (set_resolution h cfg r).1.width_height = cfg.width_height ∧
    (isResolutionPresetStr r = false →
      (set_resolution h cfg r).1.resolution_preset = Option.none) ∧
    (cfg.resolution_preset = Option.none → isResolutionPresetStr r = false →
      ∀ h2, get_resolution_width_height h2 (set_resolution h cfg r).1 =
        get_resolution_width_height h2 cfg) := by
  obtain ⟨cfg2, wh, hw, hpres, heq⟩ :
      ∃ cfg2 wh, cfg2.width_height = cfg.width_height ∧
        (isResolutionPresetStr r = false → cfg2.resolution_preset = Option.none) ∧
        set_resolution h cfg r = set_resolution_store cfg2 wh := by
    rcases r with _ | n | q | s | xs | xs
    case str =>
      cases hps : preset_to_resolution h s with
      | ok v =>
        refine ⟨{ cfg with resolution_preset := some s }, v, rfl, ?_, ?_⟩
        · intro hnp
          have hmem := preset_to_resolution_ok_mem h s v hps
          simp only [isResolutionPresetStr] at hnp
          rw [hmem] at hnp
          exact Bool.noConfusion hnp
        · simp only [set_resolution, hps]
      | error e =>
        exact ⟨{ cfg with resolution_preset := Option.none }, .str s, rfl, fun _ => rfl,
          by simp only [set_resolution, hps]⟩
    case none =>
      exact ⟨{ cfg with resolution_preset := Option.none }, .none, rfl, fun _ => rfl, rfl⟩
    case int =>
      exact ⟨{ cfg with resolution_preset := Option.none }, .int n, rfl, fun _ => rfl, rfl⟩
    case float =>
      exact ⟨{ cfg with resolution_preset := Option.none }, .float q, rfl, fun _ => rfl, rfl⟩
    case tuple =>
      exact ⟨{ cfg with resolution_preset := Option.none }, .tuple xs, rfl, fun _ => rfl, rfl⟩
    case list =>
      exact ⟨{ cfg with resolution_preset := Option.none }, .list xs, rfl, fun _ => rfl, rfl⟩
  have hres : (set_resolution h cfg r).1 = cfg2 := by
    rw [heq]
    exact set_resolution_store_err cfg2 wh (heq ▸ herr)
  refine ⟨?_, ?_, ?_⟩
  · rw [hres, hw]
  · intro hnp
    rw [hres]
    exact hpres hnp
  · intro cpre hnp h2
    rw [hres]
    simp only [get_resolution_width_height, hpres hnp, cpre, hw]

/-- Witness for the amended C2 claim: an invalid pair set against a
preset-free configuration logs an error, preserves the stored pair, and
leaves the getter value unchanged. -/
theorem set_resolution_invalid_preserves_pair_witness :
    ((set_resolution hBase (set_resolution hBase (initConfig hBase Option.none)
      (.tuple [.int 640, .int 480])).1 (.str "bogus")).2 ≠ []) ∧
    (set_resolution hBase (set_resolution hBase (initConfig hBase Option.none)
      (.tuple [.int 640, .int 480])).1 (.str "bogus")).1.width_height =
      (set_resolution hBase (initConfig hBase Option.none)
        (.tuple [.int 640, .int 480])).1.width_height ∧
    get_resolution_width_height hBase
      (set_resolution hBase (set_resolution hBase (initConfig hBase Option.none)
        (.tuple [.int 640, .int 480])).1 (.str "bogus")).1 =
      get_resolution_width_height hBase
        (set_resolution hBase (initConfig hBase Option.none)
          (.tuple [.int 640, .int 480])).1 :=
  ⟨by decide,
   (set_resolution_invalid_preserves_pair hBase
     (set_resolution hBase (initConfig hBase Option.none)
       (.tuple [.int 640, .int 480])).1 (.str "bogus") (by decide)).1,
   (set_resolution_invalid_preserves_pair hBase
     (set_resolution hBase (initConfig hBase Option.none)
       (.tuple [.int 640, .int 480])).1 (.str "bogus") (by decide)).2.2 rfl (by decide)
     hBase⟩

/-- Claim C6.  Every preset-valued configuration field re-resolves against
live host state each time it is read: with a stored resolution preset,
`get_resolution_width_height` returns `preset_to_resolution` evaluated
against the host at read time (for "Render", the host render resolution at
read time); with a stored frame-range preset, `get_start_end_frame` returns
`preset_to_frame_range` evaluated at read time (for "Playback", the host
playback range at read time).  The result depends only on the preset name
and the read-time host state, never on values cached at set time. -/
theorem presets_reresolve_at_read (h2 : HostState) (cfg : Config) :
    (∀ p, cfg.resolution_preset = some p →
      get_resolution_width_height h2 cfg = preset_to_resolution h2 p) ∧
    (cfg.resolution_preset = some "Render" →
      get_resolution_width_height h2 cfg =
        .ok (.tuple [.int h2.renderWidth, .int h2.renderHeight])) ∧
    (∀ q, cfg.frame_range_preset = some q →
      get_start_end_frame h2 cfg = preset_to_frame_range h2 q) ∧
    (cfg.frame_range_preset = some "Playback" →
      get_start_end_frame h2 cfg =
        .ok (.int (ratTrunc h2.playbackMin), .int (ratTrunc h2.playbackMax))) := by
  refine ⟨?_, ?_, ?_, ?_⟩
  · intro p hp
    simp [get_resolution_width_height, hp]
  · intro hp
    simp [get_resolution_width_height, hp, preset_to_resolution]
  · intro q hq
    simp [get_start_end_frame, hq]
  · intro hq
    simp [get_start_end_frame, hq, preset_to_frame_range]

/-- Witness for C6: the default configuration (preset "Render") plus a
"Playback" frame-range preset, read against a host state other than the one
current when the presets were stored. -/
theorem presets_reresolve_at_read_witness :
    cfgPlayback.resolution_preset = some "Render" ∧
    cfgPlayback.frame_range_preset = some "Playback" ∧
    get_resolution_width_height hAltRender cfgPlayback =
      .ok (.tuple [.int hAltRender.renderWidth, .int hAltRender.renderHeight]) ∧
    get_start_end_frame hAltRender cfgPlayback =
      .ok (.int (ratTrunc hAltRender.playbackMin), .int (ratTrunc hAltRender.playbackMax)) :=
  ⟨rfl, rfl,
   (presets_reresolve_at_read hAltRender cfgPlayback).2.1 rfl,
   (presets_reresolve_at_read hAltRender cfgPlayback).2.2.2 rfl⟩

/-- Witness for C10 on a concrete host with a missing audio file. -/
theorem audio_missing_file_encode_raises_witness :
    hNoAudioFile.soundNode = some "sound1" ∧
    hNoAudioFile.soundFileExists = false ∧
    get_frame_rate hNoAudioFile = .ok 24 ∧
    get_audio_attributes hNoAudioFile = Option.none ∧
    encode_h264 hNoAudioFile (initConfig hNoAudioFile Option.none) "src.%04d.png"
      "out.mp4" (.int 1) = .error .typeError :=
  ⟨rfl, rfl, rfl,
   (audio_missing_file_encode_raises hNoAudioFile "sound1" rfl rfl).1,
   (audio_missing_file_encode_raises hNoAudioFile "sound1" rfl rfl).2
     (initConfig hNoAudioFile Option.none) "src.%04d.png" "out.mp4" (.int 1) 24 rfl⟩

/-- Claim C5 counterexample.  The claim states `execute` aborts with a
logged error whenever the output directory is empty after `{project}`/
`{scene}` substitution, the substituted-to-empty directory being rejected
before any capture step runs.  In the source the emptiness checks (lines
512-517) run on the raw arguments before substitution (lines 519-520): with
an empty project root, the directory argument "{project}" substitutes to the
empty string, yet the run logs no error and the host recorder is invoked. -/
theorem execute_empty_substituted_dir_runs_cex :
    resolve_output_directory_path hEmptyProject "\x7bproject\x7d" = "" ∧
    hasPlayblast (execute hEmptyProject cfgImage "\x7bproject\x7d" "shot" 4 true false
      false).1 = true ∧
    hasLogError (execute hEmptyProject cfgImage "\x7bproject\x7d" "shot" 4 true false
      false).1 = false := by
  refine ⟨?_, ?_, ?_⟩ <;> decide

/-- Claim C5 (amended).  `execute` aborts with a logged error when the raw
output directory or filename argument is empty, the check running before
token substitution; in every such run no recorder invocation happens.
(A value that becomes empty only after substitution is not rejected, as the
counterexample shows.) -/
theorem execute_empty_raw_args_abort (h : HostState) (cfg : Config) (od fn : String)
    (p : Int) (so sv ow : Bool) (hempty : od = "" ∨ fn = "") :
    hasPlayblast (execute h cfg od fn p so sv ow).1 = false ∧
    hasLogError (execute h cfg od fn p so sv ow).1 = true := by
  simp only [execute]
  split_ifs with h1 h2 h3 h4 h5 h6 h7 <;>
  first
    | exact ⟨rfl, rfl⟩
    | (constructor
       · rw [hasPlayblast_append, (validate_ffmpeg_events h cfg).1]
         rfl
       · rw [hasLogError_append]
         simp [hasLogError])
    | (rcases hempty with he | he
       · exact absurd he h3
       · exact absurd he h4)

/-- Witness for the amended C5 claim: an empty raw directory argument. -/
theorem execute_empty_raw_args_abort_witness :
    (("" : String) = "" ∨ ("shot" : String) = "") ∧
    hasPlayblast (execute hBase (initConfig hBase Option.none) "" "shot" 4 true false
      false).1 = false ∧
    hasLogError (execute hBase (initConfig hBase Option.none) "" "shot" 4 true false
      false).1 = true :=
  ⟨Or.inl rfl,
   (execute_empty_raw_args_abort hBase (initConfig hBase Option.none) "" "shot" 4 true
     false false (Or.inl rfl)).1,
   (execute_empty_raw_args_abort hBase (initConfig hBase Option.none) "" "shot" 4 true
     false false (Or.inl rfl)).2⟩

/-- Claim C7.  For every call to `execute` with `overwrite = False` where the
container requires the external encoder and the final output file
`{dir}/{filename}.{container}` already exists, the run aborts with a logged
error and invokes neither the host recorder nor the encoder (the existence
check sits before the recorder call, and every earlier abort also logs and
returns first). -/
theorem execute_existing_output_aborts (h : HostState) (cfg : Config) (od fn : String)
    (p : Int) (so sv : Bool)
    (himg : cfg.container_format ≠ "Image")
    (hex : pathExists h (executeOutputPath h cfg od fn) = true) :
    hasPlayblast (execute h cfg od fn p so sv false).1 = false ∧
    hasRunFfmpeg (execute h cfg od fn p so sv false).1 = false ∧
    hasLogError (execute h cfg od fn p so sv false).1 = true := by
  have hreq : requires_ffmpeg cfg = true := by
    simp [requires_ffmpeg, himg]
  simp only [executeOutputPath] at hex
  simp only [execute]
  split_ifs with h1 h2 h3 h4 h5 h6 <;>
  first
    | exact ⟨rfl, rfl, rfl⟩
    | (refine ⟨?_, ?_, ?_⟩
       · rw [hasPlayblast_append, (validate_ffmpeg_events h cfg).1]
         rfl
       · rw [hasRunFfmpeg_append, (validate_ffmpeg_events h cfg).2]
         rfl
       · rw [hasLogError_append]
         simp [hasLogError])
    | exact absurd ⟨trivial, hex⟩ h5

/-- Witness for C7: the default mp4 configuration against a host on which
`E:/out/shot.mp4` already exists. -/
theorem execute_existing_output_aborts_witness :
    ((initConfig hOutputExists Option.none).container_format ≠ "Image") ∧
    pathExists hOutputExists (executeOutputPath hOutputExists
      (initConfig hOutputExists Option.none) "E:/out" "shot") = true ∧
    hasPlayblast (execute hOutputExists (initConfig hOutputExists Option.none) "E:/out"
      "shot" 4 true false false).1 = false ∧
    hasRunFfmpeg (execute hOutputExists (initConfig hOutputExists Option.none) "E:/out"
      "shot" 4 true false false).1 = false ∧
    hasLogError (execute hOutputExists (initConfig hOutputExists Option.none) "E:/out"
      "shot" 4 true false false).1 = true :=
  ⟨by decide, by decide,
   (execute_existing_output_aborts hOutputExists (initConfig hOutputExists Option.none)
     "E:/out" "shot" 4 true false (by decide) (by decide)).1,
   (execute_existing_output_aborts hOutputExists (initConfig hOutputExists Option.none)
     "E:/out" "shot" 4 true false (by decide) (by decide)).2.1,
   (execute_existing_output_aborts hOutputExists (initConfig hOutputExists Option.none)
     "E:/out" "shot" 4 true false (by decide) (by decide)).2.2⟩

/-- In every run of the tail of `execute` that invokes the recorder, the
originally active camera (the panel camera recorded beforehand) is set
active again at some point after the recorder invocation — both when the
recorder succeeds and when it raises — and on recorder failure the run logs
an error and performs no encoder invocation. -/
theorem executeMain_restores (h : HostState) (cfg : Config) (fn : String) (pad : Int)
    (sv : Bool) (op pod po : String) (fo : Bool) (comp : String) (iq : Int)
    (iz vw so : Bool)
    (hreach : hasPlayblast
      (executeMain h cfg fn pad sv op pod po fo comp iq iz vw so).1 = true) :
    (∃ o pre post,
      (executeMain h cfg fn pad sv op pod po fo comp iq iz vw so).1 =
        pre ++ Event.playblast o :: post ∧
      Event.setActiveCamera h.panelCamera ∈ post) ∧
    (h.playblastSucceeds = false →
      hasRunFfmpeg (executeMain h cfg fn pad sv op pod po fo comp iq iz vw so).1 =
        false ∧
      hasLogError (executeMain h cfg fn pad sv op pod po fo comp iq iz vw so).1 =
        true) := by
  revert hreach
  simp only [executeMain]
  split
  · intro hreach
    simp [hasPlayblast] at hreach
  · split
    · intro hreach
      simp [hasPlayblast] at hreach
    · split_ifs with hcam hpb hff henc hv
      · intro hreach
        exact absurd hreach (by simp [hasPlayblast])
      · intro _
        refine ⟨⟨_, [_, _], [_, .setActiveCamera h.panelCamera], rfl, by simp⟩, ?_⟩
        intro _
        exact ⟨rfl, rfl⟩
      · intro _
        refine ⟨?_, fun hf => absurd (by rw [hf]; rfl) hpb⟩
        split
        · exact ⟨_, [_, _], [.setActiveCamera h.panelCamera], rfl, by simp⟩
        · exact ⟨_, [_, _], .setActiveCamera h.panelCamera :: _, rfl,
            List.mem_cons_self _ _⟩
      · intro _
        refine ⟨?_, fun hf => absurd (by rw [hf]; rfl) hpb⟩
        split
        · exact ⟨_, [_, _], [.setActiveCamera h.panelCamera], rfl, by simp⟩
        · exact ⟨_, [_, _], .setActiveCamera h.panelCamera :: _, rfl,
            List.mem_cons_self _ _⟩
      · intro _
        refine ⟨⟨_, [_, _], .setActiveCamera h.panelCamera :: _, rfl,
          List.mem_cons_self _ _⟩, fun hf => absurd (by rw [hf]; rfl) hpb⟩
      · intro _
        refine ⟨⟨_, [_, _], [.setActiveCamera h.panelCamera], rfl, by simp⟩,
          fun hf => absurd (by rw [hf]; rfl) hpb⟩

/-- Claim C8.  In every run of `execute` that reaches the recorder
invocation, the originally active viewport camera recorded beforehand is set
active again after the recorder call, both when the recorder succeeds and
when it raises; on recorder failure the run logs an error and returns before
any encoder invocation. -/
theorem execute_restores_original_camera (h : HostState) (cfg : Config) (od fn : String)
    (p : Int) (so sv ow : Bool)
    (hreach : hasPlayblast (execute h cfg od fn p so sv ow).1 = true) :
    (∃ o pre post,
      (execute h cfg od fn p so sv ow).1 = pre ++ Event.playblast o :: post ∧
      Event.setActiveCamera h.panelCamera ∈ post) ∧
    (h.playblastSucceeds = false →
      hasRunFfmpeg (execute h cfg od fn p so sv ow).1 = false ∧
      hasLogError (execute h cfg od fn p so sv ow).1 = true) := by
  revert hreach
  simp only [execute]
  split_ifs with h1 h2 h3 h4 h5 h6 h7 <;>
  first
    | exact executeMain_restores h cfg _ _ _ _ _ _ _ _ _ _ _ _
    | (intro hreach
       exact absurd hreach (by
         rw [hasPlayblast_append, (validate_ffmpeg_events h cfg).1]
         simp [hasPlayblast]))
    | (intro hreach
       exact absurd hreach (by simp [hasPlayblast]))

/-- Witness for C8 on a concrete host whose recorder call raises. -/
theorem execute_restores_original_camera_witness :
    hasPlayblast (execute hRecorderFails (initConfig hRecorderFails Option.none)
      "E:/out" "shot" 4 true false false).1 = true ∧
    ((∃ o pre post,
      (execute hRecorderFails (initConfig hRecorderFails Option.none)
        "E:/out" "shot" 4 true false false).1 = pre ++ Event.playblast o :: post ∧
      Event.setActiveCamera hRecorderFails.panelCamera ∈ post) ∧
    (hRecorderFails.playblastSucceeds = false →
      hasRunFfmpeg (execute hRecorderFails (initConfig hRecorderFails Option.none)
        "E:/out" "shot" 4 true false false).1 = false ∧
      hasLogError (execute hRecorderFails (initConfig hRecorderFails Option.none)
        "E:/out" "shot" 4 true false false).1 = true)) :=
  ⟨by decide,
   execute_restores_original_camera hRecorderFails
     (initConfig hRecorderFails Option.none) "E:/out" "shot" 4 true false false
     (by decide)⟩

end BPlayblast
